import Mathlib

/-
Shallow embedding of the kie-ai-mcp-server task-tracking subsystem:
the SQLite-backed task store (TaskDatabase), the upstream status client
(KieAiClient.getTaskStatus with its endpoint map and sequential fallback
probing), and the MCP tool handlers (get_task_status, list_tasks and the
generation tools) from src/index.ts, src/client.ts, src/database.ts and
src/types.ts.

Modelling conventions:
- the SQLite table is a list of TaskRecord in insertion (rowid) order;
- timestamps are Nat (CURRENT_TIMESTAMP is passed in as a parameter);
- the HTTP layer is an oracle function from endpoint path to the outcome
  of the single exchange (makeRequest), so one invocation of the resolver
  is deterministic in the oracle;
- JavaScript truthiness tests on optional strings (if (updates.status),
  if (response.data?.taskId), taskData.result_url || null) are modelled by
  truthyS, which is false exactly on absent and empty strings;
- the probing loop of KieAiClient.getTaskStatus is instrumented to also
  return the list of endpoints actually called, in call order, so that
  call-count properties can be stated.
-/

namespace KieAi

/-- JavaScript truthiness of an optional string value: false for undefined
and for the empty string, true otherwise. -/
def truthyS : Option String → Bool
| some s => !(s == "")
| none => false

/-- A row of the tasks table (src/types.ts TaskRecord, without the
autoincrement rowid). -/
structure TaskRecord where
task_id : String
api_type : String
status : String
created_at : Nat
updated_at : Nat
result_url : Option String
error_message : Option String
deriving DecidableEq, Repr

/-- The argument of TaskDatabase.createTask: a TaskRecord without id and
timestamps. -/
structure NewTask where
task_id : String
api_type : String
status : String
result_url : Option String
error_message : Option String
deriving DecidableEq, Repr

/-- Errors surfaced by the store. SQLite rejects an INSERT that violates
the UNIQUE constraint on task_id. -/
inductive DbError where
| duplicateTaskId
deriving DecidableEq, Repr

/-- The message carried by the sqlite3 Error object for a UNIQUE-constraint
violation, as the handlers see it via error.message. -/
def DbError.message : DbError → String
| .duplicateTaskId => "SQLITE_CONSTRAINT: UNIQUE constraint failed: tasks.task_id"

/-- taskData.result_url || null: an absent or empty string is stored as
NULL. -/
def normOpt (o : Option String) : Option String :=
if truthyS o then o else none

/-- TaskDatabase.createTask: INSERT INTO tasks; the UNIQUE constraint on
task_id makes a duplicate insert fail and leaves the table unchanged
(the error branch returns no new store). created_at and updated_at take
the current time. -/
def createTask (db : List TaskRecord) (t : NewTask) (now : Nat) :
    Except DbError (List TaskRecord) :=
if db.any (fun r => r.task_id == t.task_id) then
  Except.error DbError.duplicateTaskId
else
  Except.ok (db ++ [{ task_id := t.task_id, api_type := t.api_type,
                      status := t.status, created_at := now, updated_at := now,
                      result_url := normOpt t.result_url,
                      error_message := normOpt t.error_message }])

/-- TaskDatabase.getTask: SELECT * FROM tasks WHERE task_id = ?, first
matching row or null. -/
def getTask (db : List TaskRecord) (tid : String) : Option TaskRecord :=
db.find? (fun r => r.task_id == tid)

/-- The partial-update argument of TaskDatabase.updateTask. -/
structure TaskUpdates where
status : Option String := none
result_url : Option String := none
error_message : Option String := none
deriving DecidableEq, Repr

/-- The effect of the generated UPDATE statement on one matching row:
each truthy field is written, and updated_at is refreshed. -/
def applyUpdates (u : TaskUpdates) (now : Nat) (r : TaskRecord) : TaskRecord :=
{ r with
  status := if truthyS u.status then u.status.getD r.status else r.status,
  result_url := if truthyS u.result_url then u.result_url else r.result_url,
  error_message := if truthyS u.error_message then u.error_message else r.error_message,
  updated_at := now }

/-- TaskDatabase.updateTask: collects the truthy fields of the partial
update; if none is present no SQL is run at all (the promise-less early
return), otherwise UPDATE tasks SET ... WHERE task_id = ? runs, updating
every matching row (zero or one) and reporting no error when no row
matches. -/
def updateTask (db : List TaskRecord) (tid : String) (u : TaskUpdates)
    (now : Nat) : Except DbError (List TaskRecord) :=
if truthyS u.status || truthyS u.result_url || truthyS u.error_message then
  Except.ok (db.map (fun r => if r.task_id == tid then applyUpdates u now r else r))
else
  Except.ok db

/-- Insertion step for ORDER BY created_at DESC. -/
def insertByCreatedDesc (r : TaskRecord) : List TaskRecord → List TaskRecord
| [] => [r]
| x :: xs =>
  if r.created_at ≤ x.created_at then x :: insertByCreatedDesc r xs
  else r :: x :: xs

/-- The rows of the table sorted by created_at descending. -/
def sortByCreatedDesc (db : List TaskRecord) : List TaskRecord :=
db.foldr insertByCreatedDesc []

/-- TaskDatabase.getAllTasks: SELECT * FROM tasks ORDER BY created_at DESC
LIMIT ?; the caller-supplied limit reaches the SQL LIMIT clause unchanged. -/
def getAllTasks (db : List TaskRecord) (limit : Nat) : List TaskRecord :=
(sortByCreatedDesc db).take limit

/-- TaskDatabase.getTasksByStatus: SELECT * FROM tasks WHERE status = ?
ORDER BY created_at DESC LIMIT ?. -/
def getTasksByStatus (db : List TaskRecord) (status : String) (limit : Nat) :
    List TaskRecord :=
((sortByCreatedDesc db).filter (fun r => r.status == status)).take limit

/-- A transport-level failure of one HTTP exchange, as normalized by
KieAiClient.makeRequest (timeout, network error and non-2xx status all
become a thrown Error carrying a message). -/
structure HttpError where
msg : String
deriving DecidableEq, Repr

/-- What KieAiClient.getTaskStatus can throw after exhausting its
candidates: the last transport error, or the generic message when the
candidate list was empty. -/
inductive ClientError where
| transport (e : HttpError)
| unableToFetch
deriving DecidableEq, Repr

/-- The endpointMap of KieAiClient.getTaskStatus: api_type to the list of
canonical status endpoints for that type. -/
def endpointMap : String → Option (List String)
| "nano-banana" => some ["/playground/recordInfo"]
| "nano-banana-edit" => some ["/playground/recordInfo"]
| "gpt4o-image" => some ["/gpt4o-image/record-info"]
| "flux-kontext-generate" => some ["/flux/kontext/record-info"]
| "flux-kontext-edit" => some ["/flux/kontext/record-info"]
| "midjourney-image" => some ["/midjourney/record-info"]
| "dalle3-image" => some ["/openai/dalle3/record-info"]
| "ideogram-image" => some ["/ideogram/record-info"]
| "stable-diffusion3-image" => some ["/stability/sd3/record-info"]
| "playground-image" => some ["/playground/v3/record-info", "/playground/recordInfo"]
| "veo3" => some ["/veo/record-info"]
| "runway-aleph-video" => some ["/runway/aleph/record-info"]
| "luma-video" => some ["/luma/record-info"]
| "sora2-video" => some ["/sora/v2/record-info"]
| "runway-gen3-video" => some ["/runway/gen3/record-info"]
| "kling-video" => some ["/kling/record-info"]
| "pika-video" => some ["/pika/record-info"]
| "haiper-video" => some ["/haiper/record-info"]
| _ => none

/-- The default fallbacks pushed unconditionally after any canonical
endpoints ("Default fallbacks for unknown task types"). -/
def defaultFallbacks : List String :=
["/playground/recordInfo", "/veo/record-info"]

/-- The endpointsToTry list built by KieAiClient.getTaskStatus: the hinted
type's canonical endpoints when the hint is present and known, followed in
every case by the shared default fallbacks. -/
def endpointsToTry (apiType : Option String) : List String :=
(match apiType with
 | some t => (endpointMap t).getD []
 | none => []) ++ defaultFallbacks

/-- The sequential for-loop over endpointsToTry: each candidate is probed
with one makeRequest exchange (the oracle http); the first successful
exchange returns immediately, a failed one records lastError and moves on;
when the list is exhausted the last error (or the generic message) is
thrown. Instrumented to also return the endpoints actually called, in call
order. -/
def probeEndpoints {α : Type} (http : String → Except HttpError α) :
    List String → Option HttpError → Except ClientError α × List String
| [], last =>
  (match last with
   | some e => Except.error (ClientError.transport e)
   | none => Except.error ClientError.unableToFetch, [])
| e :: rest, _last =>
  match http e with
  | Except.ok p => (Except.ok p, [e])
  | Except.error err =>
    let r := probeEndpoints http rest (some err)
    (r.1, e :: r.2)

/-- KieAiClient.getTaskStatus (instrumented): resolves the status of a task
by probing the candidate endpoints for the given api_type hint in order.
First component is the returned payload or thrown error, second the
endpoints called. -/
def clientGetTaskStatus {α : Type} (http : String → Except HttpError α)
    (apiType : Option String) : Except ClientError α × List String :=
probeEndpoints http (endpointsToTry apiType) none

/-- The JSON envelope produced by handleGetTaskStatus on its normal path:
the client error (if any) is swallowed by the inner try/catch, so success
is true and api_response is null whenever the upstream resolution threw.
The outer catch only fires on a local-store exception, which the pure
store model cannot raise. -/
structure StatusEnvelope (α : Type) where
success : Bool
local_task : Option TaskRecord
api_response : Option α
message : String
deriving DecidableEq, Repr

/-- KieAiMcpServer.handleGetTaskStatus for a present, non-empty task_id:
looks up the local record, asks the client for upstream status passing the
record's api_type as hint when the record exists, swallows any client
error, and returns the merged envelope. -/
def handleGetTaskStatus {α : Type} (db : List TaskRecord)
    (http : String → Except HttpError α) (tid : String) : StatusEnvelope α :=
let localTask := getTask db tid
let apiResponse : Option α :=
  match (clientGetTaskStatus http (localTask.map TaskRecord.api_type)).1 with
  | Except.ok p => some p
  | Except.error _ => none
{ success := true, local_task := localTask, api_response := apiResponse,
  message := if localTask.isSome then "Task found"
             else "Task not found in local database" }

/-- The JSON envelope produced by handleListTasks. -/
structure ListEnvelope where
success : Bool
tasks : List TaskRecord
count : Nat
deriving DecidableEq, Repr

/-- KieAiMcpServer.handleListTasks: destructures limit (default 20 when
absent) and status from the arguments and passes the limit to the store
unchanged; a truthy status routes to the filtered query. No clamping is
applied to the caller-supplied limit. -/
def handleListTasks (db : List TaskRecord) (limit : Option Nat)
    (status : Option String) : ListEnvelope :=
let lim := limit.getD 20
let tasks :=
  if truthyS status then getTasksByStatus db (status.getD "") lim
  else getAllTasks db lim
{ success := true, tasks := tasks, count := tasks.length }

/-- One validation issue raised by a zod schema check (zod collects all
issues; the model keeps the first failing check, which suffices because a
parse with any issue throws). -/
inductive ZodIssue where
| required (field : String)
| tooSmall (field : String)
| tooBig (field : String)
| invalidEnum (field : String)
| invalidUrl (field : String)
deriving DecidableEq, Repr

/-- The values of ImageSizeEnum (src/types.ts). -/
def imageSizeValues : List String :=
["1:1", "9:16", "16:9", "3:4", "4:3", "3:2", "2:3", "5:4", "4:5", "21:9", "auto"]

/-- The values of OutputFormatEnum (src/types.ts). -/
def outputFormatValues : List String :=
["png", "jpeg"]

/-- z required string field. -/
def vRequiredStr (field : String) : Option String → Except ZodIssue String
| none => Except.error (ZodIssue.required field)
| some s => Except.ok s

/-- z.string().min(lo).max(hi) on the length of the string. -/
def vLen (field : String) (lo hi : Nat) (s : String) : Except ZodIssue String :=
if s.length < lo then Except.error (ZodIssue.tooSmall field)
else if hi < s.length then Except.error (ZodIssue.tooBig field)
else Except.ok s

/-- optional enum field: z.enum(vals).optional(). -/
def vOptEnum (field : String) (vals : List String) :
    Option String → Except ZodIssue (Option String)
| none => Except.ok none
| some s =>
  if vals.contains s then Except.ok (some s)
  else Except.error (ZodIssue.invalidEnum field)

/-- z.array(z.string().url()).min(lo).max(hi); the WHATWG URL validity
check of zod is kept abstract as the predicate isUrl. -/
def vUrls (field : String) (isUrl : String → Bool) (lo hi : Nat)
    (ls : List String) : Except ZodIssue (List String) :=
if ls.length < lo then Except.error (ZodIssue.tooSmall field)
else if hi < ls.length then Except.error (ZodIssue.tooBig field)
else if ls.all isUrl then Except.ok ls
else Except.error (ZodIssue.invalidUrl field)

/-- Raw tool arguments for generate_nano_banana before validation. -/
structure NanoBananaGenerateArgs where
prompt : Option String := none
image_size : Option String := none
output_format : Option String := none
deriving DecidableEq, Repr

/-- A validated NanoBananaGenerateRequest. -/
structure NanoBananaGenerateRequest where
prompt : String
image_size : Option String
output_format : Option String
deriving DecidableEq, Repr

/-- NanoBananaGenerateSchema.parse: prompt is a required string of length
1..1000, image_size and output_format are optional enums. -/
def parseNanoBananaGenerate (a : NanoBananaGenerateArgs) :
    Except ZodIssue NanoBananaGenerateRequest := do
let p0 ← vRequiredStr "prompt" a.prompt
let p ← vLen "prompt" 1 1000 p0
let isz ← vOptEnum "image_size" imageSizeValues a.image_size
let ofmt ← vOptEnum "output_format" outputFormatValues a.output_format
Except.ok { prompt := p, image_size := isz, output_format := ofmt }

/-- Raw tool arguments for edit_nano_banana before validation. -/
structure NanoBananaEditArgs where
prompt : Option String := none
image_urls : Option (List String) := none
image_size : Option String := none
output_format : Option String := none
deriving DecidableEq, Repr

/-- A validated NanaBananaEditRequest. -/
structure NanaBananaEditRequest where
prompt : String
image_urls : List String
image_size : Option String
output_format : Option String
deriving DecidableEq, Repr

/-- NanoBananaEditSchema.parse: prompt 1..1000 chars, image_urls a required
array of 1..5 URLs, optional enums. -/
def parseNanoBananaEdit (isUrl : String → Bool) (a : NanoBananaEditArgs) :
    Except ZodIssue NanaBananaEditRequest := do
let p0 ← vRequiredStr "prompt" a.prompt
let p ← vLen "prompt" 1 1000 p0
let urls ←
  match a.image_urls with
  | none => Except.error (ZodIssue.required "image_urls")
  | some ls => vUrls "image_urls" isUrl 1 5 ls
let isz ← vOptEnum "image_size" imageSizeValues a.image_size
let ofmt ← vOptEnum "output_format" outputFormatValues a.output_format
Except.ok { prompt := p, image_urls := urls, image_size := isz, output_format := ofmt }

/-- The KieAiResponse wire shape: code, msg and an optional data payload. -/
structure KieAiResponse (α : Type) where
code : Int
msg : String
data : Option α := none
deriving DecidableEq, Repr

/-- The data payload of image-generation responses. -/
structure ImageResponse where
imageUrl : Option String := none
taskId : Option String := none
deriving DecidableEq, Repr

/-- The data payload of video-task responses. -/
structure TaskResponse where
taskId : String
deriving DecidableEq, Repr

/-- The uniform success/failure envelope of the generation tool handlers. -/
structure ToolEnvelope (α : Type) where
success : Bool
response : Option (KieAiResponse α) := none
error : Option String := none
deriving DecidableEq, Repr

/-- response.data?.taskId of an image-generation response, as an optional
string. -/
def imageDataTaskId (resp : KieAiResponse ImageResponse) : Option String :=
match resp.data with
| some d => d.taskId
| none => none

/-- KieAiMcpServer.handleGenerateNanoBanana: parse the arguments (outside
the try block, so a validation issue is thrown synchronously before any
other work), submit the generation, and when the response carries a truthy
taskId insert a pending nano-banana record; a createTask failure is caught
and becomes the failure envelope while the store keeps its prior contents.
Besides the resulting store and envelope the model returns the list of
submissions actually issued upstream. -/
def handleGenerateNanoBanana (db : List TaskRecord)
    (submit : NanoBananaGenerateRequest → Except HttpError (KieAiResponse ImageResponse))
    (now : Nat) (a : NanoBananaGenerateArgs) :
    List TaskRecord × Except ZodIssue (ToolEnvelope ImageResponse) ×
      List NanoBananaGenerateRequest :=
match parseNanoBananaGenerate a with
| Except.error e => (db, Except.error e, [])
| Except.ok req =>
  match submit req with
  | Except.error he =>
    (db, Except.ok { success := false, error := some he.msg }, [req])
  | Except.ok resp =>
    let tid := imageDataTaskId resp
    if truthyS tid then
      match createTask db { task_id := tid.getD "", api_type := "nano-banana",
                            status := "pending",
                            result_url := resp.data.bind ImageResponse.imageUrl,
                            error_message := none } now with
      | Except.ok db' =>
        (db', Except.ok { success := true, response := some resp }, [req])
      | Except.error de =>
        (db, Except.ok { success := false, error := some de.message }, [req])
    else
      (db, Except.ok { success := true, response := some resp }, [req])

/-- KieAiMcpServer.handleEditNanoBanana: same shape as the generate
handler, with the edit schema and the nano-banana-edit api_type. -/
def handleEditNanoBanana (isUrl : String → Bool) (db : List TaskRecord)
    (submit : NanaBananaEditRequest → Except HttpError (KieAiResponse ImageResponse))
    (now : Nat) (a : NanoBananaEditArgs) :
    List TaskRecord × Except ZodIssue (ToolEnvelope ImageResponse) ×
      List NanaBananaEditRequest :=
match parseNanoBananaEdit isUrl a with
| Except.error e => (db, Except.error e, [])
| Except.ok req =>
  match submit req with
  | Except.error he =>
    (db, Except.ok { success := false, error := some he.msg }, [req])
  | Except.ok resp =>
    let tid := imageDataTaskId resp
    if truthyS tid then
      match createTask db { task_id := tid.getD "", api_type := "nano-banana-edit",
                            status := "pending",
                            result_url := resp.data.bind ImageResponse.imageUrl,
                            error_message := none } now with
      | Except.ok db' =>
        (db', Except.ok { success := true, response := some resp }, [req])
      | Except.error de =>
        (db, Except.ok { success := false, error := some de.message }, [req])
    else
      (db, Except.ok { success := true, response := some resp }, [req])

/-- The JSON envelope of handleGenerateVeo3Video. -/
structure Veo3Envelope where
success : Bool
task_id : Option String := none
error : Option String := none
deriving DecidableEq, Repr

/-- The try-block of KieAiMcpServer.handleGenerateVeo3Video, from the
already-validated request onward: submit the generation; when the
response carries a truthy taskId, insert a pending veo3 record; a thrown
error (transport or duplicate insert) becomes the failure envelope. -/
def handleGenerateVeo3Video (db : List TaskRecord)
    (submitResult : Except HttpError (KieAiResponse TaskResponse)) (now : Nat) :
    List TaskRecord × Veo3Envelope :=
match submitResult with
| Except.error he => (db, { success := false, error := some he.msg })
| Except.ok resp =>
  let tid := resp.data.map TaskResponse.taskId
  if truthyS tid then
    match createTask db { task_id := tid.getD "", api_type := "veo3",
                          status := "pending", result_url := none,
                          error_message := none } now with
    | Except.ok db' => (db', { success := true, task_id := tid })
    | Except.error de => (db, { success := false, error := some de.message })
  else
    (db, { success := true, task_id := tid })

/-- A transport oracle on which every exchange fails (network down). -/
def failHttp : String → Except HttpError String :=
fun _ => Except.error { msg := "Request failed: fetch failed" }

/-- A concrete stored record used in concrete evaluations. -/
def rec0 : TaskRecord :=
{ task_id := "abc123", api_type := "veo3", status := "pending",
  created_at := 5, updated_at := 5, result_url := none, error_message := none }

/-- A transport oracle on which only the playground endpoint answers. -/
def sora2Http : String → Except HttpError String :=
fun s => if s == "/playground/recordInfo" then Except.ok "fallback-payload"
         else Except.error { msg := "Request failed: timeout" }

/-- A store row with a distinct task_id and creation time i. -/
def seedTask (i : Nat) : TaskRecord :=
{ task_id := String.mk (List.replicate i 'a'), api_type := "veo3",
  status := "pending", created_at := i, updated_at := i,
  result_url := none, error_message := none }

/-- A store holding 101 distinct task rows. -/
def seedDb : List TaskRecord :=
(List.range 101).map seedTask

/-- Edit arguments carrying six reference images, one more than the schema
allows. -/
def argsSixUrls : NanoBananaEditArgs :=
{ prompt := some "hi",
  image_urls := some ["u1", "u2", "u3", "u4", "u5", "u6"] }

/-- A URL validity predicate accepting everything (the six-image witness
fails on count alone). -/
def anyUrl : String → Bool :=
fun _ => true

/-- A submission oracle that would fail if it were ever reached. -/
def unreachableSubmit : NanaBananaEditRequest → Except HttpError (KieAiResponse ImageResponse) :=
fun _ => Except.error { msg := "unreachable" }

/-- Valid generate arguments. -/
def argsHello : NanoBananaGenerateArgs :=
{ prompt := some "hello" }

/-- A submission oracle whose successful response reuses the task id
already stored in rec0. -/
def dupSubmit : NanoBananaGenerateRequest → Except HttpError (KieAiResponse ImageResponse) :=
fun _ => Except.ok { code := 200, msg := "success",
                     data := some { imageUrl := none, taskId := some "abc123" } }

/-- If every endpoint of a prefix fails at the transport level and the next
endpoint succeeds, the probing loop stops there: it returns that payload
and calls exactly the prefix plus the successful endpoint, regardless of
the remaining candidates and of any previously recorded error. -/
theorem probe_stops_at_first_success {α : Type}
    (http : String → Except HttpError α) (e : String) (p : α)
    (hok : http e = Except.ok p) :
    ∀ (pre : List String), (∀ x ∈ pre, ∃ err, http x = Except.error err) →
    ∀ (post : List String) (last : Option HttpError),
      probeEndpoints http (pre ++ e :: post) last = (Except.ok p, pre ++ [e]) := by
  intro pre
  induction pre with
  | nil =>
    intro _ post last
    simp [probeEndpoints, hok]
  | cons x xs ih =>
    intro h post last
    obtain ⟨err, hx⟩ := h x (List.mem_cons_self x xs)
    have ih' := ih (fun y hy => h y (List.mem_cons_of_mem x hy)) post (some err)
    simp [probeEndpoints, hx, ih']

/-- If every candidate fails at the transport level, the probing loop calls
them all and ends in a thrown error. -/
theorem probe_all_fail {α : Type} (http : String → Except HttpError α) :
    ∀ (l : List String) (last : Option HttpError),
      (∀ x ∈ l, ∃ err, http x = Except.error err) →
      ∃ ce, probeEndpoints http l last = (Except.error ce, l) := by
  intro l
  induction l with
  | nil =>
    intro last _
    cases last with
    | none => exact ⟨ClientError.unableToFetch, rfl⟩
    | some e => exact ⟨ClientError.transport e, rfl⟩
  | cons x xs ih =>
    intro last h
    obtain ⟨err, hx⟩ := h x (List.mem_cons_self x xs)
    obtain ⟨ce, hrec⟩ := ih (some err) (fun y hy => h y (List.mem_cons_of_mem x hy))
    exact ⟨ce, by simp [probeEndpoints, hx, hrec]⟩

/-- Claim C1: the task-status resolver probes its candidate endpoints
sequentially in list order; the first candidate whose HTTP exchange
succeeds has its payload returned as the resolved answer, with one call to
each earlier (failing) candidate, one to the succeeding candidate, and no
call to any later candidate. -/
theorem claim_C1_sequential_fallback {α : Type}
    (http : String → Except HttpError α) (apiType : Option String)
    (pre post : List String) (e : String) (p : α)
    (hsplit : endpointsToTry apiType = pre ++ e :: post)
    (hpre : ∀ x ∈ pre, ∃ err, http x = Except.error err)
    (hok : http e = Except.ok p) :
    clientGetTaskStatus http apiType = (Except.ok p, pre ++ [e]) := by
  unfold clientGetTaskStatus
  rw [hsplit]
  exact probe_stops_at_first_success http e p hok pre hpre post none

/-- Claim C1 witness: for the sora2-video tag (1 canonical + 2 default
fallback candidates) with the canonical exchange timing out and the first
fallback succeeding, the resolver returns the fallback payload after
exactly one call to each of the first two candidates and none to the
third. -/
theorem claim_C1_sequential_fallback_witness :
    endpointsToTry (some "sora2-video") =
      ["/sora/v2/record-info"] ++ "/playground/recordInfo" :: ["/veo/record-info"] ∧
    clientGetTaskStatus sora2Http (some "sora2-video") =
      (Except.ok "fallback-payload", ["/sora/v2/record-info", "/playground/recordInfo"]) :=
  ⟨by decide,
   claim_C1_sequential_fallback sora2Http (some "sora2-video")
     ["/sora/v2/record-info"] ["/veo/record-info"] "/playground/recordInfo"
     "fallback-payload" (by decide)
     (by intro x hx
         refine ⟨{ msg := "Request failed: timeout" }, ?_⟩
         simp only [List.mem_singleton] at hx
         subst hx
         rfl)
     (by rfl)⟩

/-- Claim C7: for every provider-tag argument the candidate list is
non-empty; the shared default fallbacks always come last; an absent or
unrecognized tag yields exactly the default fallback list rather than a
failure; a known tag puts its canonical endpoints first, ahead of the
defaults. (The list is a pure function of the tag, hence deterministic.) -/
theorem claim_C7_candidate_list (t : Option String) :
    endpointsToTry t ≠ [] ∧
    (∃ pre, endpointsToTry t = pre ++ defaultFallbacks) ∧
    (t = none → endpointsToTry t = defaultFallbacks) ∧
    (∀ tag, t = some tag → endpointMap tag = none →
      endpointsToTry t = defaultFallbacks) ∧
    (∀ tag l, t = some tag → endpointMap tag = some l →
      endpointsToTry t = l ++ defaultFallbacks) := by
  refine ⟨?_, ?_, ?_, ?_, ?_⟩
  · cases t with
    | none => simp [endpointsToTry, defaultFallbacks]
    | some tag =>
      simp [endpointsToTry, defaultFallbacks]
  · cases t with
    | none => exact ⟨[], rfl⟩
    | some tag => exact ⟨(endpointMap tag).getD [], rfl⟩
  · intro ht
    subst ht
    rfl
  · intro tag ht hm
    subst ht
    simp [endpointsToTry, hm]
  · intro tag l ht hm
    subst ht
    simp [endpointsToTry, hm]

/-- Claim C7 witness: concrete instances — the list for a known tag is
canonical-first then defaults, an unknown tag falls back to the defaults,
and the list is never empty. -/
theorem claim_C7_candidate_list_witness :
    endpointsToTry (some "kling-video") ≠ [] ∧
    endpointsToTry (some "mystery-tag") = defaultFallbacks ∧
    endpointsToTry none = defaultFallbacks ∧
    endpointsToTry (some "kling-video") = ["/kling/record-info"] ++ defaultFallbacks :=
  ⟨(claim_C7_candidate_list (some "kling-video")).1,
   (claim_C7_candidate_list (some "mystery-tag")).2.2.2.1 "mystery-tag" rfl (by decide),
   (claim_C7_candidate_list none).2.2.1 rfl,
   (claim_C7_candidate_list (some "kling-video")).2.2.2.2 "kling-video"
     ["/kling/record-info"] rfl (by decide)⟩

/-- Claim C2: when a local record exists for the task_id and every
candidate upstream exchange fails at the transport level, get_task_status
still returns a non-error envelope carrying the stored local record and a
null upstream payload. -/
theorem claim_C2_local_degradation {α : Type} (db : List TaskRecord)
    (http : String → Except HttpError α) (tid : String) (r : TaskRecord)
    (hloc : getTask db tid = some r)
    (hfail : ∀ x ∈ endpointsToTry (some r.api_type), ∃ err, http x = Except.error err) :
    handleGetTaskStatus db http tid =
      { success := true, local_task := some r, api_response := none,
        message := "Task found" } := by
  obtain ⟨ce, hp⟩ := probe_all_fail http (endpointsToTry (some r.api_type)) none hfail
  simp [handleGetTaskStatus, hloc, clientGetTaskStatus, hp]

/-- Claim C2 witness: a store holding one veo3 record, an oracle on which
every exchange fails — the envelope still carries the record with a null
upstream payload. -/
theorem claim_C2_local_degradation_witness :
    getTask [rec0] "abc123" = some rec0 ∧
    handleGetTaskStatus [rec0] failHttp "abc123" =
      { success := true, local_task := some rec0, api_response := none,
        message := "Task found" } :=
  ⟨by decide,
   claim_C2_local_degradation [rec0] failHttp "abc123" rec0 (by decide)
     (by intro x _
         exact ⟨{ msg := "Request failed: fetch failed" }, rfl⟩)⟩

/-- Claim C3 counterexample: with no local record and an oracle on which
every transport exchange fails, get_task_status does not raise — it
returns the success envelope with a null local record and a null upstream
payload, contradicting the claim that it raises exactly in this case. -/
theorem claim_C3_counterexample :
    getTask ([] : List TaskRecord) "ghost-task" = none ∧
    handleGetTaskStatus ([] : List TaskRecord) failHttp "ghost-task" =
      { success := true, local_task := none, api_response := none,
        message := "Task not found in local database" } := by
  constructor
  · rfl
  · rfl

/-- Claim C3 as amended: get_task_status never raises for a task unknown
to the providers, and when every transport exchange fails it still returns
the success envelope — regardless of whether a local record exists — with
whatever local record is stored and a null upstream payload; a failure
envelope can only stem from a local-store exception, not from upstream
resolution. -/
theorem claim_C3_amended {α : Type} (db : List TaskRecord)
    (http : String → Except HttpError α) (tid : String) :
    (handleGetTaskStatus db http tid).success = true ∧
    (handleGetTaskStatus db http tid).local_task = getTask db tid ∧
    ((∀ x ∈ endpointsToTry ((getTask db tid).map TaskRecord.api_type),
        ∃ err, http x = Except.error err) →
      (handleGetTaskStatus db http tid).api_response = none) := by
  refine ⟨rfl, rfl, ?_⟩
  intro hfail
  obtain ⟨ce, hp⟩ :=
    probe_all_fail http (endpointsToTry ((getTask db tid).map TaskRecord.api_type)) none hfail
  simp [handleGetTaskStatus, clientGetTaskStatus, hp]

/-- Claim C3 amended witness: concrete all-fail resolution with no local
record still yields the success envelope with null upstream payload. -/
theorem claim_C3_amended_witness :
    (handleGetTaskStatus ([] : List TaskRecord) failHttp "lost-task").success = true ∧
    (handleGetTaskStatus ([] : List TaskRecord) failHttp "lost-task").api_response = none :=
  ⟨(claim_C3_amended ([] : List TaskRecord) failHttp "lost-task").1,
   (claim_C3_amended ([] : List TaskRecord) failHttp "lost-task").2.2
     (by intro x _
         exact ⟨{ msg := "Request failed: fetch failed" }, rfl⟩)⟩

/-- Inserting a record whose task_id is already present trips the UNIQUE
constraint. -/
theorem createTask_duplicate (db : List TaskRecord) (t : NewTask) (now : Nat)
    (r : TaskRecord) (h : getTask db t.task_id = some r) :
    createTask db t now = Except.error DbError.duplicateTaskId := by
  have h' : List.find? (fun x => x.task_id == t.task_id) db = some r := h
  have hmem : r ∈ db := List.mem_of_find?_eq_some h'
  have hpred := List.find?_some h'
  unfold createTask
  rw [if_pos]
  exact List.any_eq_true.mpr ⟨r, hmem, hpred⟩

/-- Claim C4: for every store state, inserting a record whose task_id
already exists fails with the duplicate error; since the failing insert
produces no new store, the existing record is left untouched — a duplicate
insert never silently overwrites. -/
theorem claim_C4_duplicate_insert (db : List TaskRecord) (t : NewTask)
    (now : Nat) (r : TaskRecord) (h : getTask db t.task_id = some r) :
    createTask db t now = Except.error DbError.duplicateTaskId ∧
    ∀ db', createTask db t now ≠ Except.ok db' := by
  have he := createTask_duplicate db t now r h
  exact ⟨he, fun db' hc => by rw [he] at hc; exact Except.noConfusion hc⟩

/-- Claim C4 witness: re-inserting task abc123 into a store already
holding it fails with the duplicate error. -/
theorem claim_C4_duplicate_insert_witness :
    createTask [rec0]
      { task_id := "abc123", api_type := "veo3", status := "pending",
        result_url := none, error_message := none } 9 =
      Except.error DbError.duplicateTaskId :=
  (claim_C4_duplicate_insert [rec0]
    { task_id := "abc123", api_type := "veo3", status := "pending",
      result_url := none, error_message := none } 9 rec0 (by decide)).1

/-- Claim C5 (code bug): list_tasks applies no server-side clamp — the
caller-supplied limit reaches the SQL LIMIT clause unchanged, so on a
store of 101 records a request with limit 500 returns all 101 records,
more than the documented maximum of 100. -/
theorem claim_C5_no_server_side_clamp :
    (handleListTasks seedDb (some 500) none).tasks.length = 101 ∧
    100 < (handleListTasks seedDb (some 500) none).count := by
  constructor
  · decide
  · decide

/-- Claim C6 counterexample: updating a task_id that is not in the store
completes without any error (the UPDATE simply matches zero rows) and
leaves the store unchanged — no NotFoundError is raised. -/
theorem claim_C6_counterexample :
    updateTask ([] : List TaskRecord) "missing-task"
      { status := some "processing" } 7 = Except.ok [] := by
  rfl

/-- A targeted UPDATE whose WHERE clause matches no row leaves every row
unchanged. -/
theorem update_map_noop (u : TaskUpdates) (now : Nat) (tid : String) :
    ∀ (db : List TaskRecord), (∀ r ∈ db, r.task_id ≠ tid) →
      db.map (fun r => if r.task_id == tid then applyUpdates u now r else r) = db := by
  intro db
  induction db with
  | nil => intro _; rfl
  | cons x xs ih =>
    intro h
    have hne : ¬ (x.task_id == tid) = true := by
      simp [h x (List.mem_cons_self x xs)]
    rw [List.map_cons, if_neg hne, ih (fun y hy => h y (List.mem_cons_of_mem x hy))]

/-- Claim C6 as amended: update on a task_id absent from the store
completes without error and leaves the store unchanged (the generated
UPDATE matches zero rows); no NotFoundError exists in this store. -/
theorem claim_C6_amended (db : List TaskRecord) (tid : String)
    (u : TaskUpdates) (now : Nat) (h : ∀ r ∈ db, r.task_id ≠ tid) :
    updateTask db tid u now = Except.ok db := by
  unfold updateTask
  split
  · rw [update_map_noop u now tid db h]
  · rfl

/-- Claim C6 amended witness: an update aimed at a task_id the store does
not hold succeeds and changes nothing. -/
theorem claim_C6_amended_witness :
    updateTask [rec0] "no-such-task" { status := some "failed" } 11 =
      Except.ok [rec0] :=
  claim_C6_amended [rec0] "no-such-task" { status := some "failed" } 11
    (by decide)

/-- Claim C8: when the veo3 submission succeeds and the response carries a
(non-empty) task identifier that is new to the store, exactly one new
record is appended, keyed by that task_id, carrying the veo3 api_type and
status pending, and the tool reports success. -/
theorem claim_C8_persists_pending_record (db : List TaskRecord)
    (resp : KieAiResponse TaskResponse) (d : TaskResponse) (now : Nat)
    (hd : resp.data = some d) (ht : d.taskId ≠ "")
    (hfresh : ∀ r ∈ db, r.task_id ≠ d.taskId) :
    handleGenerateVeo3Video db (Except.ok resp) now =
      (db ++ [{ task_id := d.taskId, api_type := "veo3", status := "pending",
                created_at := now, updated_at := now, result_url := none,
                error_message := none }],
       { success := true, task_id := some d.taskId }) := by
  have htid : truthyS (some d.taskId) = true := by
    simp [truthyS, ht]
  have hany : (db.any fun r => r.task_id == d.taskId) = false := by
    rw [List.any_eq_false]
    intro r hr
    simp [hfresh r hr]
  simp [handleGenerateVeo3Video, hd, htid, createTask, hany, normOpt, truthyS, ht]

/-- Claim C8 witness: submitting against an empty store with the upstream
returning task-777 leaves the store with exactly the one pending veo3
record for task-777. -/
theorem claim_C8_persists_pending_record_witness :
    handleGenerateVeo3Video ([] : List TaskRecord)
      (Except.ok { code := 200, msg := "success", data := some { taskId := "task-777" } }) 4 =
      ([{ task_id := "task-777", api_type := "veo3", status := "pending",
          created_at := 4, updated_at := 4, result_url := none,
          error_message := none }],
       { success := true, task_id := some "task-777" }) :=
  claim_C8_persists_pending_record ([] : List TaskRecord)
    { code := 200, msg := "success", data := some { taskId := "task-777" } }
    { taskId := "task-777" } 4 rfl (by decide) (by intro r hr; cases hr)

/-- Claim C9: when the caller-supplied arguments fail the tool schema, the
error is reported synchronously, no submission is issued upstream and the
store is untouched — validation failure never reaches the network. -/
theorem claim_C9_validation_never_reaches_network (isUrl : String → Bool)
    (db : List TaskRecord)
    (submit : NanaBananaEditRequest → Except HttpError (KieAiResponse ImageResponse))
    (now : Nat) (a : NanoBananaEditArgs) (e : ZodIssue)
    (hp : parseNanoBananaEdit isUrl a = Except.error e) :
    handleEditNanoBanana isUrl db submit now a = (db, Except.error e, []) := by
  simp [handleEditNanoBanana, hp]

/-- Claim C9 witness: six reference images exceed the schema maximum of
five; the handler reports the issue with zero upstream submissions and an
unchanged store. -/
theorem claim_C9_validation_never_reaches_network_witness :
    parseNanoBananaEdit anyUrl argsSixUrls = Except.error (ZodIssue.tooBig "image_urls") ∧
    handleEditNanoBanana anyUrl [rec0] unreachableSubmit 3 argsSixUrls =
      ([rec0], Except.error (ZodIssue.tooBig "image_urls"), []) :=
  ⟨rfl,
   claim_C9_validation_never_reaches_network anyUrl [rec0] unreachableSubmit 3
     argsSixUrls (ZodIssue.tooBig "image_urls") rfl⟩

/-- Claim C10: when the upstream submission succeeds but the local insert
fails on a duplicate task_id, the tool returns the failure envelope even
though the upstream task was created: the submission was issued, the
upstream side effect is not rolled back, and the store is left exactly as
it was (no record for the new response exists). -/
theorem claim_C10_insert_failure_envelope (db : List TaskRecord)
    (submit : NanoBananaGenerateRequest → Except HttpError (KieAiResponse ImageResponse))
    (now : Nat) (a : NanoBananaGenerateArgs) (req : NanoBananaGenerateRequest)
    (resp : KieAiResponse ImageResponse) (r : TaskRecord)
    (hp : parseNanoBananaGenerate a = Except.ok req)
    (hs : submit req = Except.ok resp)
    (ht : truthyS (imageDataTaskId resp) = true)
    (hdup : getTask db ((imageDataTaskId resp).getD "") = some r) :
    handleGenerateNanoBanana db submit now a =
      (db, Except.ok { success := false, response := none,
                       error := some DbError.duplicateTaskId.message },
       [req]) := by
  have hc := createTask_duplicate db
    { task_id := (imageDataTaskId resp).getD "", api_type := "nano-banana",
      status := "pending", result_url := resp.data.bind ImageResponse.imageUrl,
      error_message := none } now r hdup
  simp [handleGenerateNanoBanana, hp, hs, ht, hc]

/-- Claim C10 witness: the upstream response reuses the stored task id
abc123; the handler returns the failure envelope, the store still holds
only the original record, and exactly one submission was issued. -/
theorem claim_C10_insert_failure_envelope_witness :
    handleGenerateNanoBanana [rec0] dupSubmit 6 argsHello =
      ([rec0], Except.ok { success := false, response := none,
                           error := some DbError.duplicateTaskId.message },
       [{ prompt := "hello", image_size := none, output_format := none }]) :=
  claim_C10_insert_failure_envelope [rec0] dupSubmit 6 argsHello
    { prompt := "hello", image_size := none, output_format := none }
    { code := 200, msg := "success",
      data := some { imageUrl := none, taskId := some "abc123" } }
    rec0 rfl rfl (by decide) (by decide)

end KieAi
